import Mathlib

/-!
Verification development for the food-delivery backend.

The Credential Verifier is embedded from the `authMiddleware` function in
`src/backend/tests/auth.test.js`, and the health endpoint from
`src/backend/server.js`.  The Cart Aggregator and Order Ledger operations are
not present in the source tree (only their spec is), so they are modelled
from the specification text, as marked in their doc comments.
-/

namespace FoodDel

/-! ## Credential Verifier (from src/backend/tests/auth.test.js) -/

/-- A raw value of the `token` request header, as seen by `authMiddleware`.
JWT cryptography is abstracted: a string is either the empty string (falsy
in JavaScript), some other string that is not a well-formed JWT, or a
well-formed JWT carrying a user id, the secret it was signed with, and an
optional expiry time. -/
inductive RawToken where
  | empty : RawToken
  | malformed (s : String) : RawToken
  | signed (id : String) (secret : String) (exp : Option Int) : RawToken
deriving DecidableEq, Repr

/-- JavaScript truthiness of the header value: the empty string is falsy. -/
def RawToken.isFalsy : RawToken → Bool
  | .empty => true
  | _ => false

/-- `jwt.verify(token, secret)` at time `now`, returning the decoded user id
(`decoded.id`) on success and `none` where the library would throw:
wrong signature, malformed input, or expired token. -/
def jwtVerify (t : RawToken) (secret : String) (now : Int) : Option String :=
  match t with
  | .signed id s exp =>
      if s = secret then
        match exp with
        | none => some id
        | some e => if now < e then some id else none
      else none
  | _ => none

/-- The parts of the Express request `authMiddleware` reads or writes:
the `token` header (absent or a raw value) and `req.body.userId`. -/
structure Request where
  headerToken : Option RawToken
  bodyUserId : Option String
deriving DecidableEq, Repr

/-- The structured JSON rejection body `{ success, message }`. -/
structure JsonResponse where
  success : Bool
  message : String
deriving DecidableEq, Repr

/-- Outcome of running the middleware: either `next()` was called with the
updated request, or `res.json` sent a rejection. -/
inductive MidResult where
  | next (req : Request)
  | reject (resp : JsonResponse)
deriving DecidableEq, Repr

/-- Rejection message for a missing credential. -/
def unauthenticatedMsg : String := "Not Authorized. Login Again"

/-- Rejection message for a credential that failed verification. -/
def invalidTokenMsg : String := "Error"

/-- The auth middleware of `src/backend/tests/auth.test.js`:
`if (!token)` rejects with the missing-credential message (the empty string
is falsy, so it takes that branch too); otherwise `jwt.verify` either
yields a decoded id, which is written into `req.body.userId` before
`next()`, or throws, which is caught and answered with the generic error
message. -/
def authMiddleware (req : Request) (secret : String) (now : Int) : MidResult :=
  match req.headerToken with
  | none => .reject ⟨false, unauthenticatedMsg⟩
  | some t =>
      if t.isFalsy then .reject ⟨false, unauthenticatedMsg⟩
      else
        match jwtVerify t secret now with
        | some id => .next { req with bodyUserId := some id }
        | none => .reject ⟨false, invalidTokenMsg⟩

/-- Characterisation of a successful `jwt.verify`: it returns an id exactly
when the token is well formed, signed with the given secret, and unexpired. -/
theorem jwtVerify_eq_some_iff (t : RawToken) (secret : String) (now : Int) (id : String) :
    jwtVerify t secret now = some id ↔
      ∃ exp, t = RawToken.signed id secret exp ∧ ∀ e, exp = some e → now < e := by
  constructor
  · intro h
    cases t with
    | empty => exact absurd h (by simp [jwtVerify])
    | malformed s => exact absurd h (by simp [jwtVerify])
    | signed i s exp =>
        by_cases hs : s = secret
        · subst hs
          cases exp with
          | none =>
              have hi : i = id := by simpa [jwtVerify] using h
              subst hi
              exact ⟨none, rfl, by intro e he; cases he⟩
          | some e =>
              by_cases hlt : now < e
              · have hi : i = id := by simpa [jwtVerify, hlt] using h
                subst hi
                exact ⟨some e, rfl, by intro e1 he1; cases he1; exact hlt⟩
              · exact absurd h (by simp [jwtVerify, hlt])
        · exact absurd h (by simp [jwtVerify, hs])
  · rintro ⟨exp, rfl, hexp⟩
    cases exp with
    | none => simp [jwtVerify]
    | some e => simp [jwtVerify, hexp e rfl]

/-- Characterisation of the middleware calling `next`: it happens exactly
when a non-falsy token is present whose verification yields an id, and the
request reaching the handler is the input with `userId` overwritten. -/
theorem authMiddleware_next_iff (req : Request) (secret : String) (now : Int) (req1 : Request) :
    authMiddleware req secret now = MidResult.next req1 ↔
      ∃ t id, req.headerToken = some t ∧ t.isFalsy = false ∧
        jwtVerify t secret now = some id ∧
        req1 = { req with bodyUserId := some id } := by
  constructor
  · intro h
    cases hT : req.headerToken with
    | none => simp only [authMiddleware, hT] at h; cases h
    | some t =>
        simp only [authMiddleware, hT] at h
        by_cases hf : t.isFalsy = true
        · rw [if_pos hf] at h; cases h
        · rw [if_neg hf] at h
          cases hv : jwtVerify t secret now with
          | none => rw [hv] at h; cases h
          | some id =>
              rw [hv] at h
              cases h
              exact ⟨t, id, rfl, Bool.eq_false_iff.mpr hf, hv, rfl⟩
  · rintro ⟨t, id, hT, hf, hv, rfl⟩
    simp [authMiddleware, hT, hf, hv]

/-! ## Health endpoint (from src/backend/server.js) -/

/-- Body of the `/health` response as built in `src/backend/server.js`:
`{ status: "UP", timestamp: ..., uptime: ... }`. -/
structure HealthBody where
  status : String
  timestamp : String
  uptime : Int
deriving DecidableEq, Repr

/-- An HTTP response carrying a status code and the health body. -/
structure HttpResponse where
  statusCode : Nat
  body : HealthBody
deriving DecidableEq, Repr

/-- The `GET /health` handler of `src/backend/server.js`.  Its inputs are the
ambient process clock values; the database-connectivity flag is part of the
server's ambient state but the handler never reads it, exactly as in the
source, which touches no collaborator. -/
def healthHandler (dbConnected : Bool) (now : String) (uptimeSeconds : Int) : HttpResponse :=
  let _ := dbConnected
  { statusCode := 200
    body := { status := "UP", timestamp := now, uptime := uptimeSeconds } }

/-! ## Cart Aggregator

Modelled from the spec: the cart controller itself is not in the source
tree (only the spec describes it).  Spec section 4.2: a per-user mapping of
item-id to quantity; `addItem` increments the quantity by 1 (default 0 to
1); `removeItem` decrements by 1 and floors at 0; `getCart` returns the
full mapping.  Quantities are integers (JavaScript numbers) so that the
non-negativity invariant is a statement, not a typing artefact. -/

/-- Modelled from the spec: a user's cart-data, mapping item-id to quantity;
an absent key reads as quantity 0. -/
def CartData := String → Int

/-- Modelled from the spec: `addItem(user, itemId)` increments the quantity
for `itemId` by 1 (default 0 becomes 1). -/
def addItem (c : CartData) (itemId : String) : CartData :=
  fun j => if j = itemId then c j + 1 else c j

/-- Modelled from the spec: `removeItem(user, itemId)` decrements the
quantity by 1 and floors at 0. -/
def removeItem (c : CartData) (itemId : String) : CartData :=
  fun j => if j = itemId then max (c j - 1) 0 else c j

/-- Modelled from the spec: `getCart(user)` returns the full mapping. -/
def getCart (c : CartData) : CartData := c

/-- One Cart Aggregator operation. -/
inductive CartOp where
  | add (itemId : String)
  | remove (itemId : String)
  | get
deriving DecidableEq, Repr

/-- Apply one Cart Aggregator operation to a cart. -/
def applyOp (c : CartData) : CartOp → CartData
  | .add i => addItem c i
  | .remove i => removeItem c i
  | .get => getCart c

/-- Apply a sequence of Cart Aggregator operations, left to right. -/
def applyOps (c : CartData) : List CartOp → CartData
  | [] => c
  | op :: ops => applyOps (applyOp c op) ops

/-! ## Order Ledger

Modelled from the spec: the order controller is not in the source tree.
Spec section 4.3: `placeOrder` validates items non-empty and quantities
positive, computes the total from current catalog prices, and persists an
order in the initial state "Food Processing" with payment status false;
it fails with `EmptyCart` if items is empty.  `verifyPayment(orderId,
success)` marks payment true on success and deletes the order record on
failure.  The cart-clearing and payment-intent side effects live outside
the ledger state and are not modelled. -/

/-- Modelled from the spec: one ordered line item. -/
structure OrderItem where
  itemId : String
  quantity : Int
deriving DecidableEq, Repr

/-- Modelled from the spec: a persisted order record. -/
structure Order where
  orderId : Nat
  userId : String
  items : List OrderItem
  amount : Int
  address : String
  payment : Bool
  status : String
deriving DecidableEq, Repr

/-- Modelled from the spec: the Order Ledger state. -/
structure Ledger where
  orders : List Order
  nextId : Nat
deriving DecidableEq, Repr

/-- Modelled from the spec: validation failures of `placeOrder`
(`EmptyCart` for an empty item list; the other for a non-positive
quantity). -/
inductive OrderError where
  | emptyCart
  | invalidQuantity
deriving DecidableEq, Repr

/-- Total of an item list against a catalog price function:
sum of catalog price times quantity. -/
def orderTotal (catalog : String → Int) (items : List OrderItem) : Int :=
  (items.map (fun it => catalog it.itemId * it.quantity)).sum

/-- Modelled from the spec: `placeOrder(user, items, address)` fails with
`EmptyCart` on an empty item list, validates quantities positive, and
otherwise appends one order record in state "Food Processing" with
payment false and amount computed from the catalog at call time. -/
def placeOrder (st : Ledger) (catalog : String → Int) (userId : String)
    (items : List OrderItem) (address : String) : Except OrderError Ledger :=
  if items.isEmpty then .error .emptyCart
  else if items.any (fun it => it.quantity ≤ 0) then .error .invalidQuantity
  else .ok
    { orders := st.orders ++
        [{ orderId := st.nextId
           userId := userId
           items := items
           amount := orderTotal catalog items
           address := address
           payment := false
           status := "Food Processing" }]
      nextId := st.nextId + 1 }

/-- The ledger state after a `placeOrder` call: on failure the ledger is
left as it was. -/
def ledgerAfter (st : Ledger) (r : Except OrderError Ledger) : Ledger :=
  match r with
  | .ok st1 => st1
  | .error _ => st

/-- Modelled from the spec: `verifyPayment(orderId, success)` marks the
payment status of the matching order true on success, and deletes the
order record on failure. -/
def verifyPayment (st : Ledger) (oid : Nat) (ok : Bool) : Ledger :=
  if ok then
    { st with
        orders := st.orders.map
          (fun o => if o.orderId = oid then { o with payment := true } else o) }
  else
    { st with orders := st.orders.filter (fun o => o.orderId != oid) }

/-! ## Helper lemmas -/

/-- A raw token other than the empty string is truthy. -/
theorem RawToken.isFalsy_eq_false (t : RawToken) (h : t ≠ RawToken.empty) :
    t.isFalsy = false := by
  cases t with
  | empty => exact absurd rfl h
  | malformed s => rfl
  | signed i s e => rfl

/-- Sample well-formed token used to instantiate witnesses. -/
def sampleToken : RawToken := RawToken.signed "u1" "s1" none

/-- Sample order record used to instantiate witnesses. -/
def sampleOrder : Order :=
  { orderId := 0, userId := "u1", items := [{ itemId := "f1", quantity := 1 }],
    amount := 5, address := "a1", payment := false, status := "Food Processing" }

/-- Sample ledger used to instantiate witnesses. -/
def sampleLedger : Ledger := { orders := [sampleOrder], nextId := 1 }

/-! ## Claims -/

/-- Claim C1, amended: the empty-string header value is falsy in JavaScript,
so the middleware treats it like an absent token.  Amended statement: if no
token or an empty token is supplied, verification fails with the
Unauthenticated rejection; if a non-empty token is supplied whose
verification fails (bad signature, malformed, expired), it fails with the
InvalidToken rejection, distinct from the Unauthenticated one; if the token
verifies, the middleware proceeds with exactly the user id encoded in the
token. -/
theorem c1_verifier_cases (req : Request) (secret : String) (now : Int) :
    (req.headerToken = none ∨ req.headerToken = some RawToken.empty →
      authMiddleware req secret now = MidResult.reject ⟨false, unauthenticatedMsg⟩) ∧
    (∀ t, req.headerToken = some t → t ≠ RawToken.empty →
      jwtVerify t secret now = none →
      authMiddleware req secret now = MidResult.reject ⟨false, invalidTokenMsg⟩) ∧
    (∀ t id, req.headerToken = some t → jwtVerify t secret now = some id →
      authMiddleware req secret now = MidResult.next { req with bodyUserId := some id }) ∧
    unauthenticatedMsg ≠ invalidTokenMsg := by
  refine ⟨?_, ?_, ?_, by decide⟩
  · rintro (h | h) <;> simp [authMiddleware, h, RawToken.isFalsy]
  · intro t ht hne hv
    simp [authMiddleware, ht, RawToken.isFalsy_eq_false t hne, hv]
  · intro t id ht hv
    obtain ⟨exp, rfl, -⟩ := (jwtVerify_eq_some_iff t secret now id).mp hv
    simp [authMiddleware, ht, RawToken.isFalsy, hv]

/-- Witness for C1: a concrete valid token is accepted with its encoded id. -/
theorem c1_verifier_cases_witness :
    authMiddleware ⟨some sampleToken, none⟩ "s1" 0
      = MidResult.next ⟨some sampleToken, some "u1"⟩ :=
  (c1_verifier_cases ⟨some sampleToken, none⟩ "s1" 0).2.2.1 sampleToken "u1" rfl rfl

/-- Counterexample for C1 as stated: the empty string is a supplied token
that fails verification, yet the middleware answers with the
Unauthenticated rejection, not the InvalidToken one. -/
theorem c1_empty_token_counterexample :
    (some RawToken.empty ≠ (none : Option RawToken)) ∧
    jwtVerify RawToken.empty "test-secret" 0 = none ∧
    authMiddleware ⟨some RawToken.empty, none⟩ "test-secret" 0
      = MidResult.reject ⟨false, unauthenticatedMsg⟩ ∧
    MidResult.reject ⟨false, unauthenticatedMsg⟩
      ≠ MidResult.reject ⟨false, invalidTokenMsg⟩ := by
  refine ⟨by decide, rfl, rfl, by decide⟩

/-- Claim C2: a token is accepted (the request proceeds to the handler)
only if it is signed with the server secret and unexpired. -/
theorem c2_accept_only_valid (req : Request) (secret : String) (now : Int) (req1 : Request)
    (h : authMiddleware req secret now = MidResult.next req1) :
    ∃ id exp, req.headerToken = some (RawToken.signed id secret exp) ∧
      ∀ e, exp = some e → now < e := by
  obtain ⟨t, id, ht, -, hv, -⟩ := (authMiddleware_next_iff req secret now req1).mp h
  obtain ⟨exp, rfl, hexp⟩ := (jwtVerify_eq_some_iff t secret now id).mp hv
  exact ⟨id, exp, ht, hexp⟩

/-- Witness for C2 at a concrete accepted request. -/
theorem c2_accept_only_valid_witness :
    ∃ id exp, (Request.mk (some sampleToken) none).headerToken
        = some (RawToken.signed id "s1" exp) ∧ ∀ e, exp = some e → (0 : Int) < e :=
  c2_accept_only_valid ⟨some sampleToken, none⟩ "s1" 0
    ⟨some sampleToken, some "u1"⟩ (by decide)

/-- Claim C3: the middleware is total; every run either passes the request
to the handler with exactly one user id written into it, or sends one
structured rejection with `success := false`, and never both. -/
theorem c3_dichotomy (req : Request) (secret : String) (now : Int) :
    ((∃ id, authMiddleware req secret now
        = MidResult.next { req with bodyUserId := some id }) ∨
      (∃ msg, authMiddleware req secret now = MidResult.reject ⟨false, msg⟩)) ∧
    ¬((∃ req1, authMiddleware req secret now = MidResult.next req1) ∧
      (∃ resp, authMiddleware req secret now = MidResult.reject resp)) := by
  constructor
  · cases hT : req.headerToken with
    | none =>
        exact Or.inr ⟨unauthenticatedMsg, by simp [authMiddleware, hT]⟩
    | some t =>
        by_cases hf : t.isFalsy = true
        · exact Or.inr ⟨unauthenticatedMsg, by simp [authMiddleware, hT, hf]⟩
        · cases hv : jwtVerify t secret now with
          | some id => exact Or.inl ⟨id, by simp [authMiddleware, hT, hf, hv]⟩
          | none => exact Or.inr ⟨invalidTokenMsg, by simp [authMiddleware, hT, hf, hv]⟩
  · rintro ⟨⟨r1, h1⟩, ⟨r2, h2⟩⟩
    rw [h1] at h2
    simp at h2

/-- Witness for C3 at a concrete request with no token. -/
theorem c3_dichotomy_witness :
    (∃ id, authMiddleware ⟨none, none⟩ "s1" 0 = MidResult.next ⟨none, some id⟩) ∨
    (∃ msg, authMiddleware ⟨none, none⟩ "s1" 0 = MidResult.reject ⟨false, msg⟩) :=
  (c3_dichotomy ⟨none, none⟩ "s1" 0).1

/-- Claim C9: `GET /health` always answers 200 with body status "UP",
independently of database connectivity. -/
theorem c9_health_up (db : Bool) (now : String) (up : Int) :
    (healthHandler db now up).statusCode = 200 ∧
    (healthHandler db now up).body.status = "UP" ∧
    ∀ db1, healthHandler db now up = healthHandler db1 now up :=
  ⟨rfl, rfl, fun _ => rfl⟩

/-- Claim C10: on acceptance the middleware overwrites `req.body.userId`
with the id decoded from the token, so two requests carrying the same token
but different client-supplied body user ids reach the handler with the same
identity. -/
theorem c10_identity_overwrite (r1 r2 : Request) (secret : String) (now : Int)
    (hT : r1.headerToken = r2.headerToken) (r1n r2n : Request)
    (h1 : authMiddleware r1 secret now = MidResult.next r1n)
    (h2 : authMiddleware r2 secret now = MidResult.next r2n) :
    (∃ t id, r1.headerToken = some t ∧ jwtVerify t secret now = some id ∧
      r1n.bodyUserId = some id ∧ r2n.bodyUserId = some id) ∧
    r1n.bodyUserId = r2n.bodyUserId := by
  obtain ⟨t, id, ht1, -, hv1, hr1⟩ := (authMiddleware_next_iff r1 secret now r1n).mp h1
  obtain ⟨t2, id2, ht2, -, hv2, hr2⟩ := (authMiddleware_next_iff r2 secret now r2n).mp h2
  rw [hT, ht2] at ht1
  cases ht1
  rw [hv1] at hv2
  cases hv2
  refine ⟨⟨t, id, hT.trans ht2, hv1, by rw [hr1], by rw [hr2]⟩, ?_⟩
  rw [hr1, hr2]

/-- Witness for C10: same token, different client-supplied body user ids,
same identity at the handler. -/
theorem c10_identity_overwrite_witness :
    (∃ t id, (Request.mk (some sampleToken) none).headerToken = some t ∧
      jwtVerify t "s1" 0 = some id ∧
      (Request.mk (some sampleToken) (some "u1")).bodyUserId = some id ∧
      (Request.mk (some sampleToken) (some "u1")).bodyUserId = some id) ∧
    (Request.mk (some sampleToken) (some "u1")).bodyUserId
      = (Request.mk (some sampleToken) (some "u1")).bodyUserId :=
  c10_identity_overwrite ⟨some sampleToken, none⟩ ⟨some sampleToken, some "attacker"⟩
    "s1" 0 rfl ⟨some sampleToken, some "u1"⟩ ⟨some sampleToken, some "u1"⟩
    (by decide) (by decide)

/-- Claim C4: `placeOrder` with an empty item list fails with `EmptyCart`
and leaves the order ledger unchanged. -/
theorem c4_empty_cart_rejected (st : Ledger) (catalog : String → Int) (u a : String) :
    placeOrder st catalog u [] a = Except.error OrderError.emptyCart ∧
    ledgerAfter st (placeOrder st catalog u [] a) = st :=
  ⟨rfl, rfl⟩

/-- Claim C5: whenever `placeOrder` creates an order (which requires a
non-empty item list), exactly one record is appended and its amount is the
sum over the items of catalog price times quantity at call time. -/
theorem c5_total_correct (st : Ledger) (catalog : String → Int) (u a : String)
    (items : List OrderItem) (st1 : Ledger)
    (h : placeOrder st catalog u items a = Except.ok st1) :
    items ≠ [] ∧ ∃ ord, st1.orders = st.orders ++ [ord] ∧
      ord.amount = orderTotal catalog items ∧ ord.items = items := by
  simp only [placeOrder] at h
  by_cases he : items.isEmpty = true
  · rw [if_pos he] at h; cases h
  · rw [if_neg he] at h
    by_cases hq : items.any (fun it => it.quantity ≤ 0) = true
    · rw [if_pos hq] at h; cases h
    · rw [if_neg hq] at h
      cases h
      exact ⟨fun hnil => he (by simp [hnil]), _, rfl, rfl, rfl⟩

/-- Witness for C5 at a concrete single-item order. -/
theorem c5_total_correct_witness :
    ([⟨"f1", (2 : Int)⟩] : List OrderItem) ≠ [] ∧
    ∃ ord, (Ledger.mk [⟨0, "u1", [⟨"f1", 2⟩], 10, "a1", false, "Food Processing"⟩] 1).orders
        = (Ledger.mk [] 0).orders ++ [ord] ∧
      ord.amount = orderTotal (fun _ => 5) [⟨"f1", 2⟩] ∧
      ord.items = [⟨"f1", 2⟩] :=
  c5_total_correct ⟨[], 0⟩ (fun _ => 5) "u1" "a1" [⟨"f1", 2⟩]
    ⟨[⟨0, "u1", [⟨"f1", 2⟩], 10, "a1", false, "Food Processing"⟩], 1⟩ rfl

/-- Claim C6: `addItem` then `removeItem` on the same item returns the cart
to its starting state, for every cart whose quantities are non-negative
(absent keys read as 0 in the mapping). -/
theorem c6_add_remove_roundtrip (c : CartData) (itemId : String) (h : ∀ j, 0 ≤ c j) :
    ∀ j, removeItem (addItem c itemId) itemId j = c j := by
  intro j
  by_cases hj : j = itemId
  · subst hj
    have hc := h j
    unfold removeItem addItem
    rw [if_pos rfl, if_pos rfl]
    have h1 : c j + 1 - 1 = c j := by ring
    rw [h1]
    exact max_eq_left hc
  · simp [removeItem, addItem, hj]

/-- Witness for C6 at a concrete cart. -/
theorem c6_add_remove_roundtrip_witness :
    removeItem (addItem (fun _ => (0 : Int)) "f1") "f1" "f1" = (fun _ => (0 : Int)) "f1" :=
  c6_add_remove_roundtrip (fun _ => (0 : Int)) "f1" (fun _ => le_refl 0) "f1"

/-- One Cart Aggregator operation preserves non-negativity of every
quantity. -/
theorem applyOp_nonneg (c : CartData) (op : CartOp) (h : ∀ j, 0 ≤ c j) :
    ∀ j, 0 ≤ applyOp c op j := by
  intro j
  cases op with
  | add i =>
      by_cases hj : j = i
      · subst hj
        simp only [applyOp, addItem, if_pos rfl]
        have := h j
        omega
      · simpa [applyOp, addItem, hj] using h j
  | remove i =>
      by_cases hj : j = i
      · subst hj
        simp only [applyOp, removeItem, if_pos rfl]
        exact le_max_right _ _
      · simpa [applyOp, removeItem, hj] using h j
  | get => exact h j

/-- Claim C7: starting from a cart with non-negative quantities, any
sequence of Cart Aggregator operations keeps every quantity non-negative;
in particular `removeItem` on a zero/absent quantity floors at zero. -/
theorem c7_quantities_nonneg (c : CartData) (ops : List CartOp) (h : ∀ j, 0 ≤ c j) :
    (∀ j, 0 ≤ applyOps c ops j) ∧
    (∀ i, c i = 0 → removeItem c i i = 0) := by
  constructor
  · induction ops generalizing c with
    | nil => exact h
    | cons op ops ih => exact ih (applyOp c op) (applyOp_nonneg c op h)
  · intro i hi
    have h1 : removeItem c i i = max (c i - 1) 0 := by
      simp [removeItem]
    rw [h1, hi]
    decide

/-- Witness for C7: removing from an empty cart leaves the quantity at 0,
not below. -/
theorem c7_quantities_nonneg_witness :
    0 ≤ applyOps (fun _ => (0 : Int)) [CartOp.remove "f1"] "f1" :=
  (c7_quantities_nonneg (fun _ => (0 : Int)) [CartOp.remove "f1"]
    (fun _ => le_refl 0)).1 "f1"

/-- Marking an order paid is idempotent on the order list. -/
theorem map_markPaid_idem (oid : Nat) (l : List Order) :
    (l.map (fun o => if o.orderId = oid then { o with payment := true } else o)).map
        (fun o => if o.orderId = oid then { o with payment := true } else o)
      = l.map (fun o => if o.orderId = oid then { o with payment := true } else o) := by
  induction l with
  | nil => rfl
  | cons o l ih =>
      simp only [List.map_cons, ih]
      congr 1
      by_cases ho : o.orderId = oid
      · simp [ho]
      · simp [ho]

/-- Claim C8: for an existing order id, `verifyPayment(orderId, true)` is
idempotent: a second call changes nothing, the order count is preserved,
and the matching order's payment status is true. -/
theorem c8_verify_payment_idempotent (st : Ledger) (oid : Nat)
    (h : ∃ o ∈ st.orders, o.orderId = oid) :
    verifyPayment (verifyPayment st oid true) oid true = verifyPayment st oid true ∧
    (verifyPayment st oid true).orders.length = st.orders.length ∧
    ∀ o ∈ (verifyPayment st oid true).orders, o.orderId = oid → o.payment = true := by
  clear h
  refine ⟨?_, ?_, ?_⟩
  · simp only [verifyPayment, if_true, Ledger.mk.injEq]
    exact ⟨map_markPaid_idem oid st.orders, trivial⟩
  · simp [verifyPayment]
  · intro o ho hoid
    simp only [verifyPayment, if_pos rfl] at ho
    obtain ⟨o0, -, rfl⟩ := List.mem_map.mp ho
    by_cases h0 : o0.orderId = oid
    · simp [h0]
    · rw [if_neg h0] at hoid ⊢
      exact absurd hoid h0

/-- Witness for C8 at a concrete one-order ledger. -/
theorem c8_verify_payment_idempotent_witness :
    verifyPayment (verifyPayment sampleLedger 0 true) 0 true
        = verifyPayment sampleLedger 0 true ∧
    (verifyPayment sampleLedger 0 true).orders.length = sampleLedger.orders.length ∧
    ∀ o ∈ (verifyPayment sampleLedger 0 true).orders, o.orderId = 0 → o.payment = true :=
  c8_verify_payment_idempotent sampleLedger 0
    ⟨sampleOrder, List.mem_singleton.mpr rfl, rfl⟩

end FoodDel
